import Mathlib

/-!
Verification of the appraisal processing pipeline (`src/main.py`).

Python strings are modelled as `List Char`; each helper mirrors the
corresponding Python primitive (substring containment for `in`, `str.strip`,
`str.find`/`str.rfind`, slicing with `[a:b]`, and so on).  JSON values are
modelled by an inductive `Json` type, and `json.loads` by a fueled
recursive-descent parser over the JSON subset exercised by the code
(strings with basic escapes, integers, arrays, objects, booleans, null).
-/

namespace AppraisalPipeline

/-- Convert a Lean string literal to the `List Char` model of a Python string. -/
def pys (s : String) : List Char := s.data

/-- Python's `needle in hay` substring test on strings (case-sensitive
containment of contiguous characters). -/
def strIn (needle : List Char) : List Char → Bool
  | [] => needle.isEmpty
  | c :: rest => needle.isPrefixOf (c :: rest) || strIn needle rest

/-- The construction-related keyword list of `_find_appraisal_rows`
(`src/main.py` lines 315-319). -/
def constructionKeywords : List (List Char) :=
  [pys "LO-LOI Accepted-Construction - Ground Up Sale",
   pys "Construction - Ground Up Sale",
   pys "Construction"]

/-- The appraisal-related keyword list of `_find_appraisal_rows`
(`src/main.py` lines 320-323). -/
def appraisalKeywords : List (List Char) :=
  [pys "Appraisal Report", pys "Appraisal"]

/-- The value-type keyword list of `_find_appraisal_rows`
(`src/main.py` lines 326-328). -/
def valueTypeKeywords : List (List Char) :=
  [pys "As Is", pys "ARV", pys "Subject To", pys "Completed"]

/-- The per-row classification of `WebScrapingEngine._find_appraisal_rows`
(`src/main.py` lines 311-331): a row qualifies when
`(has_construction and has_appraisal) or (has_appraisal and has_value_type)`,
each flag being `any(keyword in row_text for keyword in ...)`. -/
def isAppraisalCandidate (rowText : List Char) : Bool :=
  let has_construction := constructionKeywords.any (fun kw => strIn kw rowText)
  let has_appraisal := appraisalKeywords.any (fun kw => strIn kw rowText)
  let has_value_type := valueTypeKeywords.any (fun kw => strIn kw rowText)
  (has_construction && has_appraisal) || (has_appraisal && has_value_type)

/-- The row filter of `WebScrapingEngine._find_appraisal_rows`
(`src/main.py` lines 306-333), with each needs-table row represented by
its visible text (`row.get_text()`). -/
def find_appraisal_rows (rows : List (List Char)) : List (List Char) :=
  rows.filter isAppraisalCandidate

/-- Spec-side predicate: the row text mentions some keyword of the list,
as case-sensitive substring containment. -/
def mentionsAny (kws : List (List Char)) (t : List Char) : Prop :=
  ∃ kw ∈ kws, kw <:+: t

theorem strIn_eq_true_iff (needle hay : List Char) :
    strIn needle hay = true ↔ needle <:+: hay := by
  induction hay with
  | nil =>
      simp [strIn, List.isEmpty_iff, List.infix_nil]
  | cons c rest ih =>
      simp only [strIn, Bool.or_eq_true, List.isPrefixOf_iff_prefix, ih,
        List.infix_cons_iff]

/-- C1: a needs-table row is kept by `find_appraisal_rows` iff its text
contains some construction keyword and some appraisal keyword, or some
appraisal keyword and some value-type keyword, with every keyword test
being case-sensitive substring containment of the fixed lists. -/
theorem c1_row_classification (rows : List (List Char)) (r : List Char) :
    r ∈ AppraisalPipeline.find_appraisal_rows rows ↔
      r ∈ rows ∧
        ((mentionsAny constructionKeywords r ∧ mentionsAny appraisalKeywords r) ∨
         (mentionsAny appraisalKeywords r ∧ mentionsAny valueTypeKeywords r)) := by
  rw [find_appraisal_rows, List.mem_filter]
  refine and_congr_right fun _ => ?_
  simp only [isAppraisalCandidate, Bool.or_eq_true, Bool.and_eq_true,
    List.any_eq_true, strIn_eq_true_iff, mentionsAny]

/-! JSON values and the model of Python's `json.loads`. -/

/-- A JSON value as produced by `json.loads`: Python `None`, `bool`, `int`,
`str`, `list`, `dict` (association list in insertion order, no duplicate
keys). -/
inductive Json where
  | null
  | bool (b : Bool)
  | num (n : Int)
  | str (s : List Char)
  | arr (xs : List Json)
  | obj (kvs : List (List Char × Json))

/-- Python dict item assignment `d[k] = v`: replace the value at an existing
key in place, otherwise append the pair.  `json.loads` builds objects by
repeated assignment, so duplicate source keys keep the first position with
the last value. -/
def dictSet (kvs : List (List Char × Json)) (k : List Char) (v : Json) :
    List (List Char × Json) :=
  if kvs.any (fun kv => kv.1 == k) then
    kvs.map (fun kv => if kv.1 == k then (k, v) else kv)
  else kvs ++ [(k, v)]

/-- Python `d.get(k)` on a dict: the value at the key, if present. -/
def dictGet (kvs : List (List Char × Json)) (k : List Char) : Option Json :=
  (kvs.find? (fun kv => kv.1 == k)).map (·.2)

/-- Python truthiness (`if x:`) on a JSON value. -/
def pyTruthy : Json → Bool
  | .null => false
  | .bool b => b
  | .num n => n != 0
  | .str s => !s.isEmpty
  | .arr xs => !xs.isEmpty
  | .obj kvs => !kvs.isEmpty

/-- JSON whitespace accepted between tokens by `json.loads`. -/
def isJsonWs (c : Char) : Bool := [' ', '\t', '\n', '\r'].contains c

/-- Skip JSON whitespace. -/
def skipWs (cs : List Char) : List Char := cs.dropWhile isJsonWs

/-- Decode one JSON string escape character (the subset `\" \\ \/ \n \t \r`
used by the modelled documents; other escapes are rejected). -/
def escChar (e : Char) : Option Char :=
  if e = 'n' then some '\n'
  else if e = 't' then some '\t'
  else if e = 'r' then some '\r'
  else if e = '"' || e = '\\' || e = '/' then some e
  else none

/-- Parse the body of a JSON string after the opening quote, returning the
decoded characters and the remainder after the closing quote. -/
def parseJString : List Char → Option (List Char × List Char)
  | [] => none
  | '"' :: rest => some ([], rest)
  | '\\' :: [] => none
  | '\\' :: e :: rest =>
      match escChar e with
      | none => none
      | some d => (parseJString rest).map (fun sr => (d :: sr.1, sr.2))
  | c :: rest => (parseJString rest).map (fun sr => (c :: sr.1, sr.2))

/-- ASCII decimal digit test. -/
def isDigitCh (c : Char) : Bool := ("0123456789".data).contains c

/-- Numeric value of a digit string, most significant first. -/
def natOfDigits : List Char → Nat → Nat
  | [], acc => acc
  | c :: rest, acc => natOfDigits rest (acc * 10 + (c.toNat - '0'.toNat))

/-- Parse a JSON integer (optional minus sign then digits; the fractional
and exponent forms of full JSON are outside the modelled subset). -/
def parseJNum (cs : List Char) : Option (Int × List Char) :=
  match cs with
  | '-' :: rest =>
      let ds := rest.takeWhile isDigitCh
      if ds.isEmpty then none
      else some (-(natOfDigits ds 0 : Int), rest.dropWhile isDigitCh)
  | _ =>
      let ds := cs.takeWhile isDigitCh
      if ds.isEmpty then none
      else some ((natOfDigits ds 0 : Int), cs.dropWhile isDigitCh)

/-- Parser mode: a single value, the items of an array after `[`, or the
members of an object after `{`. -/
inductive PMode where
  | value
  | items (acc : List Json)
  | members (acc : List (List Char × Json))

/-- Fueled recursive-descent JSON parser: parse according to the mode and
return the value and the unconsumed remainder. -/
def parseCore : Nat → PMode → List Char → Option (Json × List Char)
  | 0, _, _ => none
  | Nat.succ fuel, PMode.value, cs =>
      match skipWs cs with
      | [] => none
      | '"' :: rest => (parseJString rest).map (fun sr => (Json.str sr.1, sr.2))
      | '[' :: rest =>
          match skipWs rest with
          | ']' :: r => some (Json.arr [], r)
          | r => parseCore fuel (PMode.items []) r
      | '{' :: rest =>
          match skipWs rest with
          | '}' :: r => some (Json.obj [], r)
          | r => parseCore fuel (PMode.members []) r
      | cs' =>
          if (pys "true").isPrefixOf cs' then some (Json.bool true, cs'.drop 4)
          else if (pys "false").isPrefixOf cs' then some (Json.bool false, cs'.drop 5)
          else if (pys "null").isPrefixOf cs' then some (Json.null, cs'.drop 4)
          else (parseJNum cs').map (fun nr => (Json.num nr.1, nr.2))
  | Nat.succ fuel, PMode.items acc, cs =>
      match parseCore fuel PMode.value cs with
      | none => none
      | some (v, r) =>
          match skipWs r with
          | ',' :: r2 => parseCore fuel (PMode.items (acc ++ [v])) r2
          | ']' :: r2 => some (Json.arr (acc ++ [v]), r2)
          | _ => none
  | Nat.succ fuel, PMode.members acc, cs =>
      match skipWs cs with
      | '"' :: rest =>
          match parseJString rest with
          | none => none
          | some (k, r) =>
              match skipWs r with
              | ':' :: r2 =>
                  match parseCore fuel PMode.value r2 with
                  | none => none
                  | some (v, r3) =>
                      match skipWs r3 with
                      | ',' :: r4 => parseCore fuel (PMode.members (dictSet acc k v)) r4
                      | '}' :: r4 => some (Json.obj (dictSet acc k v), r4)
                      | _ => none
              | _ => none
      | _ => none

/-- Model of `json.loads`: parse one value and require only whitespace to
remain, returning `none` where CPython raises `json.JSONDecodeError`. -/
def jparse (cs : List Char) : Option Json :=
  match parseCore (2 * cs.length + 4) PMode.value cs with
  | some (v, rest) => if (skipWs rest).isEmpty then some v else none
  | none => none

/-! String helpers used by `AIDocumentProcessor.extract_structured_data`. -/

/-- Whitespace stripped by Python `str.strip()`. -/
def isPySpace (c : Char) : Bool :=
  [' ', '\t', '\n', '\r', '\x0b', '\x0c'].contains c

/-- Python `str.strip()`: drop whitespace from both ends. -/
def pyStrip (cs : List Char) : List Char :=
  ((cs.dropWhile isPySpace).reverse.dropWhile isPySpace).reverse

/-- Python `str.find(c)`: index of the first occurrence, `-1` if absent. -/
def pyFind (cs : List Char) (c : Char) : Int :=
  match cs.findIdx? (· == c) with
  | some i => (i : Int)
  | none => -1

/-- Python `str.rfind(c)`: index of the last occurrence, `-1` if absent. -/
def pyRfind (cs : List Char) (c : Char) : Int :=
  match cs.reverse.findIdx? (· == c) with
  | some i => ((cs.length - 1 - i : Nat) : Int)
  | none => -1

/-- Normalize one Python slice bound: a negative bound counts from the end
(clamped at 0 by truncated subtraction). -/
def pyIdx (n : Nat) (i : Int) : Nat :=
  if 0 ≤ i then i.toNat else n - (-i).toNat

/-- Python slicing `cs[a:b]`. -/
def pySlice (cs : List Char) (a b : Int) : List Char :=
  (cs.take (pyIdx cs.length b)).drop (pyIdx cs.length a)

/-- Python slicing `xs[:b]` on any list. -/
def pySliceTo {α : Type} (xs : List α) (b : Int) : List α :=
  xs.take (pyIdx xs.length b)

/-! The extraction schema and validation
(`AIDocumentProcessor._load_extraction_schema` / `_validate_extraction`). -/

/-- The `required` field list of the extraction schema
(`src/main.py` lines 528-534). -/
def requiredFields : List (List Char) :=
  [pys "Filename", pys "Appraisal Form Type", pys "Subject Property Address",
   pys "Subject Additional Square Footage", pys "Document Title",
   pys "Effective Date of Appraisal", pys "Appraiser Name", pys "Borrower Name",
   pys "Subject Property Value", pys "As-Is Value", pys "ARV Value",
   pys "Sales Comparables", pys "ARV Comparables", pys "Land Comparables",
   pys "Other Comparables"]

/-- The seven valid appraisal form literals (`src/main.py` lines 700-703). -/
def validForms : List (List Char) :=
  [pys "Fannie Mae Form 1004", pys "Fannie Mae Form 2055", pys "Fannie Mae Form 1025",
   pys "Fannie Mae Form 1073", pys "Fannie Mae Form 1075", pys "Form GP2-4",
   pys "Form GPLND"]

/-- The four comparable collection names (`src/main.py` line 709). -/
def comparableTypes : List (List Char) :=
  [pys "Sales Comparables", pys "ARV Comparables", pys "Land Comparables",
   pys "Other Comparables"]

/-- Python `needle in hay` where `hay` is a parsed JSON value: substring
test on a string, element equality on a list, key membership on a dict;
`none` models the `TypeError` CPython raises for the other types. -/
def pyIn (needle : List Char) (hay : Json) : Option Bool :=
  match hay with
  | .str s => some (strIn needle s)
  | .arr xs => some (xs.any (fun j => match j with | .str t => t == needle | _ => false))
  | .obj kvs => some (kvs.any (fun kv => kv.1 == needle))
  | _ => none

/-- Python `any(needle in hay for needle in needles)`: `none` models the
`TypeError` raised on the first containment test when `hay` does not
support `in` (the generator is empty only for an empty needle list). -/
def pyInAny (needles : List (List Char)) (hay : Json) : Option Bool :=
  match hay with
  | .str _ => some (needles.any (fun n => (pyIn n hay).getD false))
  | .arr _ => some (needles.any (fun n => (pyIn n hay).getD false))
  | .obj _ => some (needles.any (fun n => (pyIn n hay).getD false))
  | _ => if needles.isEmpty then some false else none

/-- Python `str()` of a JSON value as interpolated into an f-string.  For a
parsed string it is the string itself; the renderings of the other types
are abbreviated stand-ins (no modelled theorem inspects them). -/
def pyStrOf : Json → List Char
  | .str s => s
  | .num n => (toString n).data
  | .bool true => pys "True"
  | .bool false => pys "False"
  | .null => pys "None"
  | .arr _ => pys "<list>"
  | .obj _ => pys "<dict>"

/-- Stand-in for CPython's `TypeError` message `argument of type '...' is
not iterable`; like the real message, it does not embed the record. -/
def typeErrorIterMsg : List Char := pys "argument of type is not iterable"

/-- The form-type check of `_validate_extraction` (`src/main.py` lines
699-706): no warning when the field is absent or falsy; a warning when the
containment test finds no valid form; an error models the `TypeError`
raised by `in` on a non-container value. -/
def formWarning (ft : Json) : Except (List Char) (List (List Char)) :=
  if pyTruthy ft then
    match pyInAny validForms ft with
    | none => Except.error typeErrorIterMsg
    | some true => Except.ok []
    | some false => Except.ok [pys "Invalid appraisal form type: " ++ pyStrOf ft]
  else Except.ok []

/-- The comparable-structure warnings of `_validate_extraction`
(`src/main.py` lines 709-717). -/
def compWarnings (kvs : List (List Char × Json)) : List (List Char) :=
  (comparableTypes.map (fun ct =>
    match (dictGet kvs ct).getD (Json.arr []) with
    | .arr comps =>
        comps.enum.filterMap (fun ic =>
          match ic.2 with
          | .obj ckvs =>
              if pyTruthy ((dictGet ckvs (pys "Comp Address")).getD Json.null) then none
              else some (ct ++ pys "[" ++ (toString ic.1).data ++ pys "] missing address")
          | _ => some (ct ++ pys "[" ++ (toString ic.1).data ++ pys "] is not a dictionary"))
    | _ => [])).flatten

/-- Result of `_validate_extraction`: the `{"valid": ..., "warnings": ...}`
dictionary. -/
structure VOut where
  valid : Bool
  warnings : List (List Char)

/-- The missing-required-field warnings of `_validate_extraction`
(`src/main.py` lines 694-697). -/
def missingFieldWarnings (kvs : List (List Char × Json)) : List (List Char) :=
  requiredFields.filterMap (fun f =>
    if (dictGet kvs f).isSome then none
    else some (pys "Missing required field: " ++ f))

/-- Model of `AIDocumentProcessor._validate_extraction` (`src/main.py` lines
689-722): collect missing-required-field warnings, the form-type warning,
and comparable warnings, in that order; the `Except.error` case models the
`TypeError` that escapes when the form-type value does not support `in`. -/
def validate_extraction (kvs : List (List Char × Json)) : Except (List Char) VOut :=
  match formWarning ((dictGet kvs (pys "Appraisal Form Type")).getD (Json.str [])) with
  | Except.error e => Except.error e
  | Except.ok w2 =>
      let ws := missingFieldWarnings kvs ++ w2 ++ compWarnings kvs
      Except.ok ⟨ws.isEmpty, ws⟩

/-! `AIDocumentProcessor.extract_structured_data` (`src/main.py` lines
561-615), modelled from the model-response content onward (line 586). -/

/-- The key under which error results are reported. -/
def errorKey : List Char := pys "error"

/-- An error dictionary `{"error": msg}` as returned by
`extract_structured_data` on failure. -/
def errObj (msg : List Char) : Json := Json.obj [(errorKey, Json.str msg)]

/-- Stamp `extracted_data["Filename"] = filename`; `none` models the
`TypeError` raised when the parsed value is not a dict. -/
def stampFilename (j : Json) (fn : List Char) : Option (List (List Char × Json)) :=
  match j with
  | .obj kvs => some (dictSet kvs (pys "Filename") (Json.str fn))
  | _ => none

/-- Stand-in for CPython's `TypeError` message raised by item assignment on
a non-dict parse result. -/
def typeErrorAssignMsg : List Char := pys "object does not support item assignment"

/-- Stand-in for the `str()` of the `json.JSONDecodeError` raised by the
second parse tier; like the real message (`Expecting value: line 1 column 2
(char 1)` and similar) it reports only the position and expectation and
never embeds the response text. -/
def jsonDecodeMsg : List Char := pys "JSONDecodeError"

/-- Model of `AIDocumentProcessor.extract_structured_data` from the response content
on (`src/main.py` lines 586-615): strip the response, attempt a direct
`json.loads`, on failure re-parse the substring between the first `{` and
the last `}`, and wrap any remaining failure in an `{"error": ...}` dict
(the `except` ladder of lines 602-615).  Validation warnings on the direct
tier never change the returned data (lines 594-600). -/
def extract_structured_data (content : List Char) (filename : List Char) : Json :=
  let result := pyStrip content
  match jparse result with
  | some j =>
      match stampFilename j filename with
      | none => errObj typeErrorAssignMsg
      | some kvs =>
          match validate_extraction kvs with
          | Except.error e => errObj e
          | Except.ok _ => Json.obj kvs
  | none =>
      let json_start := pyFind result '{'
      let json_end := pyRfind result '}' + 1
      if json_start ≠ -1 ∧ json_end ≠ 0 then
        match jparse (pySlice result json_start json_end) with
        | some j =>
            match stampFilename j filename with
            | none => errObj typeErrorAssignMsg
            | some kvs => Json.obj kvs
        | none => errObj jsonDecodeMsg
      else errObj (pys "Could not parse AI response as JSON: " ++ result)

/-! `AppraisalProcessingPipeline._process_documents` (`src/main.py` lines
908-992). -/

/-- Python `"error" in structured_data` key membership on the returned
dict. -/
def hasKey (j : Json) (k : List Char) : Bool :=
  match j with
  | .obj kvs => kvs.any (fun kv => kv.1 == k)
  | _ => false

/-- One discovered document handle (the `doc_info` dict fields read by
`_process_documents`). -/
structure DocInfo where
  loan_id : List Char
  filename : List Char
  local_path : List Char

/-- The external behaviour surrounding one processing run: what
`extract_text_from_pdf` returns per path (`none` for a falsy result, i.e.
`None` from a parse failure or absent parser), the model-response content
per (text, filename) with `Except.error` modelling an exception raised by
the completion call (or the `OpenAI client not available` error dict path),
the ignored boolean outcomes of the two Azure uploads (both catch their own
exceptions, `src/main.py` lines 774-822), and an optional unexpected
exception raised inside a document's `try` block (`src/main.py` line 972). -/
structure ProcEnv where
  extractTextResult : List Char → Option (List Char)
  aiResponse : List Char → List Char → Except (List Char) (List Char)
  uploadDocumentOutcome : List Char → List Char → List Char → Bool
  uploadResultsOutcome : Json → List Char → Bool
  unexpectedRaise : DocInfo → Option (List Char)

/-- Model of `AIDocumentProcessor.extract_structured_data` as invoked by the
pipeline: an exception from the completion call is converted to an error
dict by the outer `except` (line 613-615); otherwise the response content
is parsed by the two-tier logic. -/
def extract_structured_via (env : ProcEnv) (text fn : List Char) : Json :=
  match env.aiResponse text fn with
  | Except.error e => errObj e
  | Except.ok content => extract_structured_data content fn

/-- One per-document result entry appended to `results["results"]`:
`success` carries `extraction_successful: True` with the text length and
extracted data, `failure` carries `extraction_successful: False` with the
error string (timestamps are wall-clock and not modelled). -/
inductive ResultEntry where
  | success (loan_id filename : List Char) (text_length : Nat) (data : Json)
  | failure (loan_id filename : List Char) (error : List Char)

/-- The counters dict built by `_process_documents`. -/
structure ProcResults where
  processed : Nat
  successful : Nat
  failed : Nat
  results : List ResultEntry

/-- The body of the per-document loop of `_process_documents`
(`src/main.py` lines 920-990).  Note that the `continue` statements for a
falsy text extraction (line 931) and for an error dict from structured
extraction (line 942) skip the `results["processed"] += 1` at line 986 and
append no result entry; only the success path and the unexpected-exception
handler reach the `processed` increment. -/
def processOneDoc (env : ProcEnv) (acc : ProcResults) (doc : DocInfo) : ProcResults :=
  match env.unexpectedRaise doc with
  | some msg =>
      { processed := acc.processed + 1,
        successful := acc.successful,
        failed := acc.failed + 1,
        results := acc.results ++ [ResultEntry.failure doc.loan_id doc.filename msg] }
  | none =>
      match env.extractTextResult doc.local_path with
      | none => { acc with failed := acc.failed + 1 }
      | some text =>
          if text.isEmpty then { acc with failed := acc.failed + 1 }
          else
            let structured := extract_structured_via env text doc.filename
            if hasKey structured errorKey then { acc with failed := acc.failed + 1 }
            else
              let _u1 := env.uploadDocumentOutcome doc.local_path doc.loan_id doc.filename
              let _u2 := env.uploadResultsOutcome structured doc.loan_id
              { processed := acc.processed + 1,
                successful := acc.successful + 1,
                failed := acc.failed,
                results := acc.results ++
                  [ResultEntry.success doc.loan_id doc.filename text.length structured] }

/-- Model of `AppraisalProcessingPipeline._process_documents` (`src/main.py` lines
908-992): fold the per-document loop over the discovered documents starting
from zeroed counters. -/
def process_documents (env : ProcEnv) (docs : List DocInfo) : ProcResults :=
  docs.foldl (processOneDoc env) ⟨0, 0, 0, []⟩

/-! `AzureStorageManager.get_processed_loan_ids` (`src/main.py` lines
746-772). -/

/-- The fixed blob key prefix `processed_appraisals/` (`src/main.py`
line 733). -/
def blobFolder : List Char := pys "processed_appraisals/"

/-- Character-is-not-slash test used to model `split('/')[0]`. -/
def notSlash (c : Char) : Bool := c != '/'

/-- The per-key body of the loop of `get_processed_loan_ids`
(`src/main.py` lines 758-765): under the prefix, `remaining_path` is the
key after the prefix, and `remaining_path.split('/')[0]` (the text before
the first `/`) is the loan id, kept only when a `/` is present and the id
is non-empty. -/
def loanIdOfBlob (name : List Char) : Option (List Char) :=
  if blobFolder.isPrefixOf name then
    if (name.drop blobFolder.length).contains '/' then
      if ((name.drop blobFolder.length).takeWhile notSlash).isEmpty then none
      else some ((name.drop blobFolder.length).takeWhile notSlash)
    else none
  else none

/-- Model of `AzureStorageManager.get_processed_loan_ids` (`src/main.py` lines
746-772): with no client or a listing failure return the empty set;
otherwise collect the loan id of each listed blob key.  The Python set is
modelled by the list of ids in listing order (membership is what the
theorems state). -/
def get_processed_loan_ids (available : Bool) (names : List (List Char)) :
    List (List Char) :=
  if available then names.filterMap loanIdOfBlob else []

/-! `WebScrapingEngine._wait_for_download` (`src/main.py` lines 398-414). -/

/-- One directory entry as seen by a poll: its name and `os.path.getsize`
outcome (`none` models the `except: continue` when `getsize` raises). -/
structure DirFile where
  name : List Char
  size : Option Nat

/-- The in-progress-download suffixes excluded by line 407. -/
def downloadSuffixes : List (List Char) := [pys ".crdownload", pys ".tmp"]

/-- Python `new_file.endswith(('.crdownload', '.tmp'))`. -/
def hasDownloadSuffix (name : List Char) : Bool :=
  downloadSuffixes.any (fun suf => suf.isSuffixOf name)

/-- The body of the inner loop of `_wait_for_download` for one candidate:
skip names carrying an in-progress suffix, skip entries whose size read
raised, and return the name when the size exceeds 1024 bytes. -/
def fileReady (df : DirFile) : Option (List Char) :=
  if !hasDownloadSuffix df.name then
    match df.size with
    | some n => if n > 1024 then some df.name else none
    | none => none
  else none

/-- One poll iteration of `_wait_for_download`: scan the files that are new
relative to the initial snapshot and return the first ready one.
Python iterates a set difference in unspecified order; the model iterates
the listing order of the given state. -/
def findCompletedFile (initial : List (List Char)) (files : List DirFile) :
    Option (List Char) :=
  (files.filter (fun f => !initial.contains f.name)).findSome? fileReady

/-- Model of `WebScrapingEngine._wait_for_download` (`src/main.py` lines 398-414)
over a trace of per-second directory observations (one per loop iteration,
`none` when the downloads directory does not exist): return the first
qualifying new filename, or `none` when the trace (of length `timeout`)
is exhausted. -/
def wait_for_download (initial : List (List Char)) :
    List (Option (List DirFile)) → Option (List Char)
  | [] => none
  | p :: rest =>
      match p with
      | none => wait_for_download initial rest
      | some files =>
          match findCompletedFile initial files with
          | some f => some f
          | none => wait_for_download initial rest

/-! `AppraisalProcessingPipeline.run_complete_pipeline` and `main`
(`src/main.py` lines 836-906 and 1022-1063). -/

/-- Model of `main`'s cap parsing `int(os.getenv('MAX_LOANS', '0')) or None`
(`src/main.py` line 1037), given the integer value of the variable (`0`
when it is absent). -/
def parseMaxLoans (v : Int) : Option Int :=
  if v == 0 then none else some v

/-- The truncation `if max_loans: discovered_docs = discovered_docs[:max_loans]`
(`src/main.py` lines 870-871); `none` and `0` are falsy and leave the list
unchanged. -/
def applyMaxLoans (maxLoans : Option Int) (docs : List DocInfo) : List DocInfo :=
  match maxLoans with
  | none => docs
  | some n => if n == 0 then docs else pySliceTo docs n

/-- The sequential steps of `run_complete_pipeline`. -/
inductive PipeStep where
  | auth
  | nav
  | loadIndex
  | discover
  | process
  | summarize

/-- All six steps in order. -/
def allSteps : List PipeStep :=
  [PipeStep.auth, PipeStep.nav, PipeStep.loadIndex, PipeStep.discover,
   PipeStep.process, PipeStep.summarize]

/-- The external behaviour of one full run: authentication and navigation
outcomes, storage availability and blob listing, the discovery outcome as a
function of the processed-loan set (the portal is external), the processing
environment, the cap, and an optional exception raised while saving the
summary (`_save_processing_summary` writes to disk inside the `try`). -/
structure RunEnv where
  authOk : Bool
  navOk : Bool
  storageAvailable : Bool
  blobNames : List (List Char)
  discoverDocs : List (List Char) → List DocInfo
  procEnv : ProcEnv
  maxLoans : Option Int
  summarySaveRaise : Option (List Char)

/-- The summary dict assembled at lines 880-890 (timestamps and the derived
percentage string are wall-clock artifacts and not modelled). -/
structure RunSummary where
  documents_discovered : Nat
  documents_processed : Nat
  successful_extractions : Nat
  failed_extractions : Nat
  detailed_results : List ResultEntry

/-- The value returned by `run_complete_pipeline`: an `{"error": ...}` dict
or the summary dict. -/
inductive RunResult where
  | errorResult (msg : List Char)
  | summaryResult (s : RunSummary)

/-- Model of `AppraisalProcessingPipeline.run_complete_pipeline` (`src/main.py`
lines 836-906): the second component of the triple records that
`web_scraper.cleanup()` ran — the Python `finally` (line 905-906) runs it
on every exit path, so every branch of the model sets it; the third
component is the list of steps reached, in order.  An authentication
failure returns `{"error": "Authentication failed"}` before navigation; a
navigation failure returns `{"error": "Pipeline navigation failed"}`; an
exception anywhere in the remaining steps is converted by the `except` at
lines 901-903 into an error dict. -/
def run_complete_pipeline (env : RunEnv) : RunResult × Bool × List PipeStep :=
  if !env.authOk then
    (RunResult.errorResult (pys "Authentication failed"), true, [PipeStep.auth])
  else if !env.navOk then
    (RunResult.errorResult (pys "Pipeline navigation failed"), true,
      [PipeStep.auth, PipeStep.nav])
  else
    let processedIds := get_processed_loan_ids env.storageAvailable env.blobNames
    let discovered := env.discoverDocs processedIds
    let docs := applyMaxLoans env.maxLoans discovered
    let pr := process_documents env.procEnv docs
    let summary : RunSummary :=
      ⟨docs.length, pr.processed, pr.successful, pr.failed, pr.results⟩
    match env.summarySaveRaise with
    | some e => (RunResult.errorResult e, true, allSteps)
    | none => (RunResult.summaryResult summary, true, allSteps)

/-! Theorems for the individual claims. -/

/-- C2 counterexample: on the response `"xx{oops}yy"` the direct parse
fails, a brace-bounded substring `"{oops}"` exists but also fails to parse,
and the returned error dict carries the decoder's message — which does not
contain the raw unparsable text — rather than the raw text itself. -/
theorem c2_counterexample :
    jparse (pyStrip (pys "xx{oops}yy")) = none ∧
    jparse (pySlice (pyStrip (pys "xx{oops}yy"))
      (pyFind (pyStrip (pys "xx{oops}yy")) '{')
      (pyRfind (pyStrip (pys "xx{oops}yy")) '}' + 1)) = none ∧
    extract_structured_data (pys "xx{oops}yy") (pys "f.pdf") = errObj jsonDecodeMsg ∧
    strIn (pys "xx{oops}yy") jsonDecodeMsg = false :=
  ⟨rfl, rfl, rfl, rfl⟩

/-- C2 amended: structured extraction first attempts a direct parse of the
stripped response; on failure it parses the substring between the first
`{` and the last `}`; when both tiers fail it returns an error dict without
raising — carrying the raw unparsable text when no brace-bounded substring
exists, and carrying the JSON decoder's message (not the raw text) when
the substring exists but fails to parse. -/
theorem c2_parse_tiers (content fn : List Char) :
    (∀ j kvs out, jparse (pyStrip content) = some j →
      stampFilename j fn = some kvs →
      validate_extraction kvs = Except.ok out →
      extract_structured_data content fn = Json.obj kvs) ∧
    (jparse (pyStrip content) = none →
      ((pyFind (pyStrip content) '{' ≠ -1 ∧ pyRfind (pyStrip content) '}' + 1 ≠ 0) →
        (∀ j kvs,
          jparse (pySlice (pyStrip content) (pyFind (pyStrip content) '{')
            (pyRfind (pyStrip content) '}' + 1)) = some j →
          stampFilename j fn = some kvs →
          extract_structured_data content fn = Json.obj kvs) ∧
        (jparse (pySlice (pyStrip content) (pyFind (pyStrip content) '{')
            (pyRfind (pyStrip content) '}' + 1)) = none →
          extract_structured_data content fn = errObj jsonDecodeMsg)) ∧
      (¬(pyFind (pyStrip content) '{' ≠ -1 ∧ pyRfind (pyStrip content) '}' + 1 ≠ 0) →
        extract_structured_data content fn =
          errObj (pys "Could not parse AI response as JSON: " ++ pyStrip content))) := by
  refine ⟨?_, ?_⟩
  · intro j kvs out hj hs hv
    simp only [extract_structured_data, hj, hs, hv]
  · intro hnone
    refine ⟨fun hbrace => ⟨?_, ?_⟩, fun hnbrace => ?_⟩
    · intro j kvs hj2 hs
      simp only [extract_structured_data, hnone, if_pos hbrace, hj2, hs]
    · intro hj2
      simp only [extract_structured_data, hnone, if_pos hbrace, hj2]
    · simp only [extract_structured_data, hnone, if_neg hnbrace]

/-- C2 witness: a response with no brace at all takes the error path that
carries the raw text. -/
theorem c2_parse_tiers_witness :
    extract_structured_data (pys "no braces") (pys "f") =
      errObj (pys "Could not parse AI response as JSON: " ++ pyStrip (pys "no braces")) :=
  (((c2_parse_tiers (pys "no braces") (pys "f")).2 rfl).2 (by decide))

/-- Environment for the C3 divergence run: text extraction succeeds and the
model response is unparsable, so structured extraction returns an error
dict. -/
def c3Env : ProcEnv :=
  ⟨fun _ => some (pys "document text"), fun _ _ => Except.ok (pys "not json"),
   fun _ _ _ => true, fun _ _ => true, fun _ => none⟩

/-- The single document of the C3 divergence run. -/
def c3Doc : DocInfo := ⟨pys "L1", pys "appraisal.pdf", pys "downloads/appraisal.pdf"⟩

/-- C3: on a run with exactly one document whose structured extraction
returns an error object, the code yields `processed = 0` (the `continue`
at line 942 skips the `results["processed"] += 1` at line 986), `failed = 1`,
and records no error entry — while the claim requires `processed = 1` and a
recorded error string. -/
theorem c3_processed_counter_divergence :
    hasKey (extract_structured_via c3Env (pys "document text") (pys "appraisal.pdf"))
      errorKey = true ∧
    process_documents c3Env [c3Doc] =
      { processed := 0, successful := 0, failed := 1, results := [] } :=
  ⟨rfl, rfl⟩

/-- A directory entry qualifies for `_wait_for_download`: new relative to
the snapshot, no in-progress suffix, and a known size above 1024 bytes. -/
def qualifies (initial : List (List Char)) (df : DirFile) : Prop :=
  initial.contains df.name = false ∧ hasDownloadSuffix df.name = false ∧
    ∃ n, df.size = some n ∧ n > 1024

theorem fileReady_eq_some (df : DirFile) (g : List Char) :
    fileReady df = some g ↔
      g = df.name ∧ hasDownloadSuffix df.name = false ∧
        ∃ n, df.size = some n ∧ n > 1024 := by
  rcases df with ⟨name, _ | n⟩
  · by_cases hs : hasDownloadSuffix name <;> simp [fileReady, hs]
  · by_cases hs : hasDownloadSuffix name
    · simp [fileReady, hs]
    · by_cases hn : n > 1024
      · simp [fileReady, hs, hn, eq_comm]
      · simp [fileReady, hs, hn]

theorem findCompletedFile_some (initial : List (List Char)) (files : List DirFile)
    (f : List Char) (h : findCompletedFile initial files = some f) :
    ∃ df ∈ files, df.name = f ∧ qualifies initial df := by
  obtain ⟨df, hdf, hval⟩ := List.exists_of_findSome?_eq_some h
  rw [List.mem_filter] at hdf
  obtain ⟨hg, hsuf, hsz⟩ := (fileReady_eq_some df f).mp hval
  exact ⟨df, hdf.1, hg.symm, by simpa using hdf.2, hsuf, hsz⟩

theorem findCompletedFile_none (initial : List (List Char)) (files : List DirFile)
    (h : ∀ df ∈ files, initial.contains df.name = false →
      hasDownloadSuffix df.name = false → ∀ n, df.size = some n → n ≤ 1024) :
    findCompletedFile initial files = none := by
  rw [findCompletedFile, List.findSome?_eq_none_iff]
  intro df hdf
  rw [List.mem_filter] at hdf
  rcases hval : fileReady df with _ | g
  · rfl
  · obtain ⟨hg, hsuf, n, hsize, hn⟩ := (fileReady_eq_some df g).mp hval
    have := h df hdf.1 (by simpa using hdf.2) hsuf n hsize
    omega

/-- C4: `_wait_for_download` accepts a filename only if some polled
directory state contains it as a new file without an in-progress-download
suffix and with size above the threshold; and when no polled state ever
contains a qualifying file, it returns `none` rather than an error. -/
theorem c4_wait_for_download (initial : List (List Char))
    (polls : List (Option (List DirFile))) :
    (∀ f, wait_for_download initial polls = some f →
      ∃ files, some files ∈ polls ∧ ∃ df ∈ files, df.name = f ∧ qualifies initial df) ∧
    ((∀ files, some files ∈ polls → ∀ df ∈ files,
        initial.contains df.name = false → hasDownloadSuffix df.name = false →
        ∀ n, df.size = some n → n ≤ 1024) →
      wait_for_download initial polls = none) := by
  induction polls with
  | nil =>
      refine ⟨fun f h => ?_, fun _ => rfl⟩
      cases h
  | cons p rest ih =>
      refine ⟨?_, ?_⟩
      · intro f h
        rcases p with _ | files
        · obtain ⟨files, hmem, hrest⟩ := ih.1 f h
          exact ⟨files, List.mem_cons_of_mem _ hmem, hrest⟩
        · simp only [wait_for_download] at h
          rcases hfc : findCompletedFile initial files with _ | g
          · rw [hfc] at h
            obtain ⟨files2, hmem, hrest⟩ := ih.1 f h
            exact ⟨files2, List.mem_cons_of_mem _ hmem, hrest⟩
          · rw [hfc] at h
            obtain ⟨df, hdf, hname, hq⟩ := findCompletedFile_some initial files g hfc
            exact ⟨files, List.mem_cons_self _ _, df, hdf,
              hname.trans (Option.some.inj h), hq⟩
      · intro hno
        rcases p with _ | files
        · simp only [wait_for_download]
          exact ih.2 fun files hmem => hno files (List.mem_cons_of_mem _ hmem)
        · simp only [wait_for_download]
          rw [findCompletedFile_none initial files (hno files (List.mem_cons_self _ _))]
          exact ih.2 fun files2 hmem => hno files2 (List.mem_cons_of_mem _ hmem)

/-- C4 witness: the spec's example — before-snapshot `{a.txt}`, one poll
showing `a.txt`, `b.pdf.crdownload`, and `c.pdf` above the threshold —
returns `c.pdf`, and the theorem certifies the returned file qualifies. -/
theorem c4_wait_for_download_witness :
    ∃ files, some files ∈
        [some [DirFile.mk (pys "a.txt") (some 5000),
               DirFile.mk (pys "b.pdf.crdownload") (some 9000),
               DirFile.mk (pys "c.pdf") (some 2048)]] ∧
      ∃ df ∈ files, df.name = pys "c.pdf" ∧ qualifies [pys "a.txt"] df :=
  (c4_wait_for_download [pys "a.txt"]
      [some [DirFile.mk (pys "a.txt") (some 5000),
             DirFile.mk (pys "b.pdf.crdownload") (some 9000),
             DirFile.mk (pys "c.pdf") (some 2048)]]).1
    (pys "c.pdf") rfl

/-- C5 counterexample: on the response `{"Appraisal Form Type": 5}` the
direct parse succeeds, but the validator's containment test on the numeric
form-type value raises (`"Fannie Mae Form 1004" in 5` is a `TypeError`), so
the caller receives an `{"error": ...}` dict instead of the parsed record
with the stamped `Filename` — validation does affect what is returned. -/
theorem c5_counterexample :
    jparse (pyStrip (pys "\x7b\"Appraisal Form Type\": 5\x7d")) =
      some (Json.obj [(pys "Appraisal Form Type", Json.num 5)]) ∧
    extract_structured_data (pys "\x7b\"Appraisal Form Type\": 5\x7d") (pys "f.pdf") =
      errObj typeErrorIterMsg ∧
    extract_structured_data (pys "\x7b\"Appraisal Form Type\": 5\x7d") (pys "f.pdf") ≠
      Json.obj (dictSet [(pys "Appraisal Form Type", Json.num 5)] (pys "Filename")
        (Json.str (pys "f.pdf"))) := by
  refine ⟨rfl, rfl, fun h => ?_⟩
  have h2 : hasKey (extract_structured_data (pys "\x7b\"Appraisal Form Type\": 5\x7d")
        (pys "f.pdf")) (pys "Filename") =
      hasKey (Json.obj (dictSet [(pys "Appraisal Form Type", Json.num 5)] (pys "Filename")
        (Json.str (pys "f.pdf")))) (pys "Filename") := by rw [h]
  exact absurd h2 (by decide)

/-- The form-type value of a record, when present and truthy, supports the
Python `in` containment test (it is a string, list, or dict). -/
def formTypeSupportsIn (kvs : List (List Char × Json)) : Prop :=
  ∀ ft, dictGet kvs (pys "Appraisal Form Type") = some ft →
    pyTruthy ft = false ∨ (pyInAny validForms ft).isSome

theorem formWarning_ok_of_supports (kvs : List (List Char × Json))
    (hft : formTypeSupportsIn kvs) :
    ∃ w, formWarning ((dictGet kvs (pys "Appraisal Form Type")).getD (Json.str [])) =
      Except.ok w := by
  rcases hget : dictGet kvs (pys "Appraisal Form Type") with _ | ft
  · exact ⟨[], rfl⟩
  · simp only [Option.getD_some]
    rcases hft ft hget with htr | hsome
    · exact ⟨[], by rw [formWarning]; simp [htr]⟩
    · rw [formWarning]
      by_cases htr : pyTruthy ft
      · simp only [htr, if_true]
        rcases hin : pyInAny validForms ft with _ | b
        · simp [hin] at hsome
        · rcases b with _ | _
          · exact ⟨[pys "Invalid appraisal form type: " ++ pyStrOf ft], rfl⟩
          · exact ⟨[], rfl⟩
      · simp only [Bool.not_eq_true] at htr
        simp [htr]

/-- C5 amended: validation never mutates values — for every response whose
direct parse yields a dict, provided the stamped record's form-type value
(when present and truthy) is a string, list, or dict, validation returns
only a warnings list and the caller receives exactly the parsed record with
`Filename` stamped, even when warnings are present; a truthy form-type
value that does not support the containment test (e.g. a number) instead
makes the validator raise and the caller receives an error dict. -/
theorem c5_validation_advisory (content fn : List Char)
    (okvs : List (List Char × Json))
    (hparse : jparse (pyStrip content) = some (Json.obj okvs))
    (hft : formTypeSupportsIn (dictSet okvs (pys "Filename") (Json.str fn))) :
    ∃ out, validate_extraction (dictSet okvs (pys "Filename") (Json.str fn)) =
        Except.ok out ∧
      extract_structured_data content fn =
        Json.obj (dictSet okvs (pys "Filename") (Json.str fn)) := by
  obtain ⟨w, hw⟩ := formWarning_ok_of_supports _ hft
  refine ⟨⟨(missingFieldWarnings (dictSet okvs (pys "Filename") (Json.str fn)) ++ w ++
      compWarnings (dictSet okvs (pys "Filename") (Json.str fn))).isEmpty,
    missingFieldWarnings (dictSet okvs (pys "Filename") (Json.str fn)) ++ w ++
      compWarnings (dictSet okvs (pys "Filename") (Json.str fn))⟩, ?_, ?_⟩
  · rw [validate_extraction, hw]
  · simp only [extract_structured_data, hparse, stampFilename, validate_extraction, hw]

/-- C5 witness: the empty record `{}` (all required fields missing, so
warnings are present) is still returned with only the `Filename` stamped. -/
theorem c5_validation_advisory_witness :
    ∃ out, validate_extraction (dictSet [] (pys "Filename") (Json.str (pys "f.pdf"))) =
        Except.ok out ∧
      extract_structured_data (pys "{}") (pys "f.pdf") =
        Json.obj (dictSet [] (pys "Filename") (Json.str (pys "f.pdf"))) :=
  c5_validation_advisory (pys "{}") (pys "f.pdf") [] rfl
    (fun ft h => by cases h)

theorem takeWhile_notSlash_of_append (s r : List Char) (hs : '/' ∉ s) :
    (s ++ '/' :: r).takeWhile notSlash = s := by
  induction s with
  | nil => simp [List.takeWhile_cons, notSlash]
  | cons c cs ih =>
      have hc : c ≠ '/' := fun h => hs (h ▸ List.mem_cons_self c cs)
      have hcs : '/' ∉ cs := fun h => hs (List.mem_cons_of_mem _ h)
      simp [List.takeWhile_cons, notSlash, hc, ih hcs]

theorem split_at_first_slash (t : List Char) (ht : '/' ∈ t) :
    t = t.takeWhile notSlash ++ '/' :: (t.dropWhile notSlash).tail ∧
      '/' ∉ t.takeWhile notSlash := by
  induction t with
  | nil => cases ht
  | cons c cs ih =>
      by_cases hc : c = '/'
      · subst hc
        constructor
        · simp [List.takeWhile_cons, List.dropWhile_cons, notSlash]
        · simp [List.takeWhile_cons, notSlash]
      · have hbc : notSlash c = true := by simp [notSlash, hc]
        have hcs : '/' ∈ cs := by
          rcases List.mem_cons.mp ht with h | h
          · exact absurd h.symm hc
          · exact h
        obtain ⟨ih1, ih2⟩ := ih hcs
        constructor
        · simp only [List.takeWhile_cons, List.dropWhile_cons, hbc, if_true,
            List.cons_append]
          exact congrArg (List.cons c) ih1
        · intro hmem
          simp only [List.takeWhile_cons, hbc, if_true] at hmem
          rcases List.mem_cons.mp hmem with h1 | h1
          · exact hc h1.symm
          · exact ih2 h1

theorem loanIdOfBlob_eq_some (name s : List Char) :
    loanIdOfBlob name = some s ↔
      s ≠ [] ∧ '/' ∉ s ∧ ∃ rest, name = blobFolder ++ s ++ '/' :: rest := by
  constructor
  · intro h
    by_cases hpre : blobFolder.isPrefixOf name = true
    · obtain ⟨t, ht⟩ := List.isPrefixOf_iff_prefix.mp hpre
      rw [loanIdOfBlob, if_pos hpre, ← ht, List.drop_left] at h
      by_cases hcont : t.contains '/' = true
      · rw [if_pos hcont] at h
        by_cases hemp : (t.takeWhile notSlash).isEmpty = true
        · rw [if_pos hemp] at h; cases h
        · rw [if_neg hemp] at h
          have hs := Option.some.inj h
          have hslash : '/' ∈ t := by simpa using hcont
          obtain ⟨hsplit, hnos⟩ := split_at_first_slash t hslash
          refine ⟨?_, ?_, (t.dropWhile notSlash).tail, ?_⟩
          · rw [← hs]; simpa [List.isEmpty_iff] using hemp
          · rw [← hs]; exact hnos
          · rw [← ht, ← hs, List.append_assoc]
            exact congrArg (blobFolder ++ ·) hsplit
      · rw [if_neg hcont] at h; cases h
    · rw [loanIdOfBlob, if_neg hpre] at h; cases h
  · rintro ⟨hne, hnos, rest, hname⟩
    subst hname
    have hpre : blobFolder.isPrefixOf (blobFolder ++ s ++ '/' :: rest) = true :=
      List.isPrefixOf_iff_prefix.mpr
        ⟨s ++ '/' :: rest, (List.append_assoc blobFolder s ('/' :: rest)).symm⟩
    rw [loanIdOfBlob, if_pos hpre, List.append_assoc, List.drop_left]
    have hcont : (s ++ '/' :: rest).contains '/' = true := by simp
    rw [if_pos hcont, takeWhile_notSlash_of_append s rest hnos,
      if_neg (by simpa [List.isEmpty_iff] using hne)]

/-- C6: with storage available, `get_processed_loan_ids` returns exactly
the ids `s` such that some persisted key is the fixed prefix followed by
`s`, a slash, and a further path segment — a key with no path segment after
the prefix contributes nothing — and with storage unavailable or
unconfigured it returns the empty set rather than failing. -/
theorem c6_processed_loan_ids (names : List (List Char)) (s : List Char) :
    (s ∈ get_processed_loan_ids true names ↔
      s ≠ [] ∧ '/' ∉ s ∧ ∃ rest, blobFolder ++ s ++ '/' :: rest ∈ names) ∧
    get_processed_loan_ids false names = [] := by
  constructor
  · rw [get_processed_loan_ids, if_pos rfl, List.mem_filterMap]
    constructor
    · rintro ⟨name, hmem, hf⟩
      obtain ⟨hne, hnos, rest, hname⟩ := (loanIdOfBlob_eq_some name s).mp hf
      exact ⟨hne, hnos, rest, hname ▸ hmem⟩
    · rintro ⟨hne, hnos, rest, hmem⟩
      exact ⟨blobFolder ++ s ++ '/' :: rest, hmem,
        (loanIdOfBlob_eq_some _ s).mpr ⟨hne, hnos, rest, rfl⟩⟩
  · rfl

/-- C6 witness: the id `L1` is recovered from the key
`processed_appraisals/L1/a.pdf`. -/
theorem c6_processed_loan_ids_witness :
    pys "L1" ∈ get_processed_loan_ids true [pys "processed_appraisals/L1/a.pdf"] :=
  (c6_processed_loan_ids [pys "processed_appraisals/L1/a.pdf"] (pys "L1")).1.mpr
    ⟨by decide, by decide, pys "a.pdf", by decide⟩

/-- C7: when the max-loans cap parses to a positive `n`, the run truncates
the discovered documents to at most `n`, so at most `n` distinct loan ids
are processed; when the environment value is absent (`0`) or the cap is
zero, the document list is left unchanged (unlimited). -/
theorem c7_max_loans_cap (n : Int) (docs : List DocInfo) :
    (0 < n →
      (((applyMaxLoans (parseMaxLoans n) docs).map DocInfo.loan_id).dedup.length : Int)
        ≤ n) ∧
    parseMaxLoans 0 = none ∧
    applyMaxLoans none docs = docs ∧
    applyMaxLoans (some 0) docs = docs := by
  refine ⟨?_, rfl, rfl, rfl⟩
  intro hn
  have hne : (n == 0) = false := beq_eq_false_iff_ne.mpr (by omega)
  have hcond : ¬((n == 0) = true) := by simp [hne]
  have h1 : parseMaxLoans n = some n := by rw [parseMaxLoans, if_neg hcond]
  have h2 : applyMaxLoans (some n) docs = docs.take n.toNat := by
    simp only [applyMaxLoans, pySliceTo, pyIdx]
    rw [if_neg hcond, if_pos hn.le]
  rw [h1, h2]
  have h3 : ((docs.take n.toNat).map DocInfo.loan_id).dedup.length ≤ n.toNat := by
    calc ((docs.take n.toNat).map DocInfo.loan_id).dedup.length
        ≤ ((docs.take n.toNat).map DocInfo.loan_id).length :=
          (List.dedup_sublist _).length_le
      _ = (docs.take n.toNat).length := by rw [List.length_map]
      _ ≤ n.toNat := by rw [List.length_take]; exact Nat.min_le_left _ _
  omega

/-- C7 witness: with the cap set to 2, at most two distinct loan ids remain
after truncation of a three-document discovery. -/
theorem c7_max_loans_cap_witness :
    (((applyMaxLoans (parseMaxLoans 2)
        [DocInfo.mk (pys "L1") (pys "a") (pys "p"),
         DocInfo.mk (pys "L1") (pys "b") (pys "q"),
         DocInfo.mk (pys "L2") (pys "c") (pys "r")]).map
          DocInfo.loan_id).dedup.length : Int) ≤ 2 :=
  (c7_max_loans_cap 2
      [DocInfo.mk (pys "L1") (pys "a") (pys "p"),
       DocInfo.mk (pys "L1") (pys "b") (pys "q"),
       DocInfo.mk (pys "L2") (pys "c") (pys "r")]).1 (by omega)

/-- C8: an authentication failure aborts the run after the first step with
the top-level error `Authentication failed`; a navigation failure aborts it
after the second step with `Pipeline navigation failed`; and on every exit
path — early failure, an exception while summarizing, or normal completion
— the browser-automation cleanup runs (the second component of the
result). -/
theorem c8_fatal_failures_and_cleanup (env : RunEnv) :
    (env.authOk = false →
      run_complete_pipeline env =
        (RunResult.errorResult (pys "Authentication failed"), true, [PipeStep.auth])) ∧
    (env.authOk = true → env.navOk = false →
      run_complete_pipeline env =
        (RunResult.errorResult (pys "Pipeline navigation failed"), true,
          [PipeStep.auth, PipeStep.nav])) ∧
    (run_complete_pipeline env).2.1 = true := by
  refine ⟨?_, ?_, ?_⟩
  · intro h
    simp [run_complete_pipeline, h]
  · intro h1 h2
    simp [run_complete_pipeline, h1, h2]
  · rcases h1 : env.authOk with _ | _
    · simp [run_complete_pipeline, h1]
    · rcases h2 : env.navOk with _ | _
      · simp [run_complete_pipeline, h1, h2]
      · rcases h3 : env.summarySaveRaise with _ | e <;>
          simp [run_complete_pipeline, h1, h2, h3]

/-- C8 witness: a run whose authentication fails returns the top-level
error result, releases resources, and executes only the first step. -/
theorem c8_fatal_failures_and_cleanup_witness :
    run_complete_pipeline
      ⟨false, true, true, [], fun _ => [],
       ⟨fun _ => none, fun _ _ => Except.ok [], fun _ _ _ => true,
        fun _ _ => true, fun _ => none⟩, none, none⟩ =
      (RunResult.errorResult (pys "Authentication failed"), true, [PipeStep.auth]) :=
  (c8_fatal_failures_and_cleanup
    ⟨false, true, true, [], fun _ => [],
     ⟨fun _ => none, fun _ _ => Except.ok [], fun _ _ _ => true,
      fun _ _ => true, fun _ => none⟩, none, none⟩).1 rfl

/-- C9: the outcomes of the two Azure uploads never influence the
processing results — two runs differing only in their upload outcomes
produce identical counters and result entries — and a document whose text
extraction and structured extraction both succeed is counted successful and
recorded with a success entry whatever the uploads return. -/
theorem c9_upload_independence
    (et : List Char → Option (List Char))
    (ar : List Char → List Char → Except (List Char) (List Char))
    (ra : DocInfo → Option (List Char))
    (u1 u2 : List Char → List Char → List Char → Bool)
    (v1 v2 : Json → List Char → Bool)
    (docs : List DocInfo) (doc : DocInfo) (text : List Char) :
    process_documents ⟨et, ar, u1, v1, ra⟩ docs =
      process_documents ⟨et, ar, u2, v2, ra⟩ docs ∧
    (ra doc = none → et doc.local_path = some text → text.isEmpty = false →
      hasKey (extract_structured_via ⟨et, ar, u1, v1, ra⟩ text doc.filename)
        errorKey = false →
      process_documents ⟨et, ar, u1, v1, ra⟩ [doc] =
        { processed := 1, successful := 1, failed := 0,
          results := [ResultEntry.success doc.loan_id doc.filename text.length
            (extract_structured_via ⟨et, ar, u1, v1, ra⟩ text doc.filename)] }) := by
  constructor
  · have hfun : processOneDoc ⟨et, ar, u1, v1, ra⟩ =
        processOneDoc ⟨et, ar, u2, v2, ra⟩ := by
      funext acc d
      rfl
    rw [process_documents, process_documents, hfun]
  · intro h1 h2 h3 h4
    simp [process_documents, processOneDoc, h1, h2, h3, h4]

/-- C9 witness: a document with extractable text and a parsable model
response is recorded successful even though one upload reports failure. -/
theorem c9_upload_independence_witness :
    process_documents
      ⟨fun _ => some (pys "text"), fun _ _ => Except.ok (pys "{}"),
       fun _ _ _ => true, fun _ _ => false, fun _ => none⟩
      [DocInfo.mk (pys "L1") (pys "a.pdf") (pys "p")] =
      { processed := 1, successful := 1, failed := 0,
        results := [ResultEntry.success (pys "L1") (pys "a.pdf") (pys "text").length
          (extract_structured_via
            ⟨fun _ => some (pys "text"), fun _ _ => Except.ok (pys "{}"),
             fun _ _ _ => true, fun _ _ => false, fun _ => none⟩
            (pys "text") (pys "a.pdf"))] } :=
  (c9_upload_independence (fun _ => some (pys "text"))
    (fun _ _ => Except.ok (pys "{}")) (fun _ => none)
    (fun _ _ _ => true) (fun _ _ _ => true) (fun _ _ => false) (fun _ _ => false)
    [] (DocInfo.mk (pys "L1") (pys "a.pdf") (pys "p")) (pys "text")).2
    rfl rfl rfl rfl

theorem formWarning_mem (ft : Json) (ws : List (List Char)) (w : List Char)
    (hws : formWarning ft = Except.ok ws) (hw : w ∈ ws) :
    pyTruthy ft = true ∧ pyInAny validForms ft = some false := by
  by_cases htr : pyTruthy ft = true
  · rw [formWarning, if_pos htr] at hws
    rcases hin : pyInAny validForms ft with _ | b
    · rw [hin] at hws; cases hws
    · rcases b with _ | _
      · exact ⟨htr, rfl⟩
      · rw [hin] at hws
        injection hws with h
        subst h
        cases hw
  · rw [formWarning, if_neg htr] at hws
    injection hws with h
    subst h
    cases hw

/-- C10: when the extracted record's form-type field is absent or the empty
string, validation emits no invalid-form-type warning (the returned
warnings are exactly the missing-field and comparable warnings); and the
form-type check produces a warning only when the field is present, truthy,
and its containment test finds none of the seven valid form literals — in
particular, for a string value, only when the string is non-empty and
contains no valid form literal as a substring. -/
theorem c10_form_type_warning (kvs : List (List Char × Json)) :
    ((dictGet kvs (pys "Appraisal Form Type") = none ∨
      dictGet kvs (pys "Appraisal Form Type") = some (Json.str [])) →
      validate_extraction kvs = Except.ok
        ⟨(missingFieldWarnings kvs ++ compWarnings kvs).isEmpty,
         missingFieldWarnings kvs ++ compWarnings kvs⟩) ∧
    (∀ ws w, formWarning ((dictGet kvs (pys "Appraisal Form Type")).getD
        (Json.str [])) = Except.ok ws → w ∈ ws →
      ∃ ft, dictGet kvs (pys "Appraisal Form Type") = some ft ∧
        pyTruthy ft = true ∧ pyInAny validForms ft = some false ∧
        ∀ s2, ft = Json.str s2 → s2 ≠ [] ∧ ∀ vf ∈ validForms, ¬ vf <:+: s2) := by
  constructor
  · intro hget
    have hform : formWarning ((dictGet kvs (pys "Appraisal Form Type")).getD
        (Json.str [])) = Except.ok [] := by
      rcases hget with h | h <;> rw [h] <;> rfl
    rw [validate_extraction, hform]
    simp
  · intro ws w hws hw
    rcases hget : dictGet kvs (pys "Appraisal Form Type") with _ | ft
    · rw [hget] at hws
      obtain ⟨htr, _⟩ := formWarning_mem _ _ w hws hw
      exact absurd htr (by decide)
    · rw [hget] at hws
      obtain ⟨htr, hfalse⟩ := formWarning_mem _ _ w hws hw
      simp only [Option.getD_some] at htr hfalse
      refine ⟨ft, rfl, htr, hfalse, ?_⟩
      intro s2 hs2
      subst hs2
      constructor
      · simpa [pyTruthy, List.isEmpty_iff] using htr
      · intro vf hvf hinf
        rw [pyInAny] at hfalse
        have hany := Option.some.inj hfalse
        have : validForms.any (fun n => (pyIn n (Json.str s2)).getD false) = true :=
          List.any_eq_true.mpr ⟨vf, hvf, by
            simp [pyIn, strIn_eq_true_iff, hinf]⟩
        rw [hany] at this
        cases this

/-- C10 witness: the empty record has no form-type field and validation
returns only the missing-field warnings. -/
theorem c10_form_type_warning_witness :
    validate_extraction [] = Except.ok
      ⟨(missingFieldWarnings [] ++ compWarnings []).isEmpty,
       missingFieldWarnings [] ++ compWarnings []⟩ :=
  (c10_form_type_warning []).1 (Or.inl rfl)

end AppraisalPipeline
